import Mathlib

/-! Shallow embedding of the inventory subsystem of qgame-rs
(src/qgame/inventory.rs): the data model, the slot allocator, the equip
state machine, the item activity state machine and the pickup resolver,
together with proofs of the specification claims about them.

Modelling conventions:
* Durations are milliseconds as Nat.  Rust Duration::saturating_sub is
  exactly truncated subtraction on Nat; the saturation bound of
  saturating_add (u64 seconds) is astronomically far from every value
  handled here, so Nat addition is a faithful model of it.
* Entity ids are Nat.
* A Rust panic (out-of-bounds array indexing, unimplemented!, unwrap on
  a failed lookup) is modelled by an Option-valued function returning
  none.
* State names are the literal strings of the source.
* Bevy Commands (spawn and despawn) take effect at the end of a system
  run, not immediately; the pickup resolver makes this deferral
  explicit.  Entity ids allocated by spawn are visible immediately.
-/

namespace QGame

/-- State-name constant from inventory.rs. -/
def EQUIPPING_STATE : String := "equipping"

/-- State-name constant from inventory.rs. -/
def EQUIPPED_STATE : String := "equipped"

/-- State-name constant from inventory.rs. -/
def UNEQUIPPING_STATE : String := "unequipping"

/-- State-name constant from inventory.rs. -/
def UNEQUIPPED_STATE : String := "unequipped"

/-- State-name constant from inventory.rs. -/
def IDLE_STATE : String := "idle"

/-- State-name constant from inventory.rs. -/
def RELOAD_STATE : String := "reload"

/-- State-name constant from inventory.rs. -/
def FIRE_STATE : String := "fire"

/-- The fixed dwell duration of both state machines, in milliseconds
(Duration::from_millis(2000) in the source). -/
def dwellMs : Nat := 2000

/-- The Item component: per-item name, stack amount, activity state name,
elapsed duration in that state, owning inventory entity and slot index. -/
structure Item where
  name : String
  amount : Nat
  state_name : String
  state_dur : Nat
  inv_ent : Nat
  inv_slot : Nat
deriving Repr, DecidableEq

/-- The Inventory component: ten optional item-entity references, the
currently and previously equipped slots, and the equip state machine
state (name plus elapsed duration). -/
structure Inventory where
  equipped_slot : Option Nat
  prev_equipped_slot : Option Nat
  equip_state_name : String
  equip_state_dur : Nat
  item_ents : List (Option Nat)
deriving Repr, DecidableEq

/-- Default for Inventory (impl Default in the source): nothing equipped,
state unequipped, all ten slots empty. -/
def Inventory.default : Inventory :=
  { equipped_slot := none
    prev_equipped_slot := none
    equip_state_name := UNEQUIPPED_STATE
    equip_state_dur := 0
    item_ents := List.replicate 10 none }

/-- Modelled from the spec: the PlayerInput component is defined outside
src (inventory.rs imports it from the crate root); the only field the
inventory subsystem reads is the optional wanted item slot, an
externally recomputed slot request (spec section 6). -/
structure PlayerInput where
  wanted_item_slot : Option Nat
deriving Repr, DecidableEq

/-- The item store: the set of live Item components, keyed by entity id
(the view that a Query of Item gives the systems). -/
abbrev ItemStore : Type := List (Nat × Item)

/-- Association-list lookup by entity id: the first entry with the given
key, if any (models Query::get). -/
def assocGet {α : Type} (l : List (Nat × α)) (e : Nat) : Option α :=
  (l.find? (fun p => p.1 == e)).map (fun p => p.2)

/-- Association-list update by entity id: every entry with the given key
is replaced (models writing through a Query::get_mut reference; keys are
unique in an actual entity store). -/
def assocSet {α : Type} (l : List (Nat × α)) (e : Nat) (v : α) : List (Nat × α) :=
  l.map (fun p => if p.1 = e then (e, v) else p)

/-- Remove every entry whose entity id is in ds (application of deferred
despawn commands). -/
def removeEnts {α : Type} (ds : List Nat) (l : List (Nat × α)) : List (Nat × α) :=
  l.filter (fun p => decide (p.1 ∉ ds))

/-- Look up a live Item by entity id. -/
def lookupItem (store : ItemStore) (e : Nat) : Option Item :=
  assocGet store e

/-- Resolve an optional slot entry to a live Item, as find_slot does: an
empty slot resolves to none, and an occupied slot resolves through the
item query (a stale reference also yields none). -/
def entItem (store : ItemStore) : Option Nat → Option Item
  | some e => lookupItem store e
  | none => none

/-- The live item (if any) sitting in slot s of an inventory. -/
def slotItem (store : ItemStore) (inv : Inventory) (s : Nat) : Option Item :=
  entItem store (inv.item_ents.getD s none)

/-- Inventory::find_slot, inner loop: scan the slot array left to right
starting at index i, returning the first index whose resolved occupancy
satisfies the predicate. -/
def findSlotAux (store : ItemStore) (p : Option Item → Bool) :
    Nat → List (Option Nat) → Option Nat
  | _, [] => none
  | slot, ent :: rest =>
    if p (entItem store ent) = true then some slot
    else findSlotAux store p (slot + 1) rest

/-- Inventory::find_slot: first slot (index order 0..10) whose resolved
item satisfies the predicate. -/
def Inventory.find_slot (inv : Inventory) (store : ItemStore)
    (p : Option Item → Bool) : Option Nat :=
  findSlotAux store p 0 inv.item_ents

/-- Inventory::find_replacement: the previously equipped slot if set,
otherwise the first slot holding a live item. -/
def Inventory.find_replacement (inv : Inventory) (store : ItemStore) : Option Nat :=
  if inv.prev_equipped_slot = none then
    inv.find_slot store (fun item => item.isSome)
  else inv.prev_equipped_slot

/-- Result of Inventory::set_item: the updated inventory, the entity that
a deferred despawn command was issued for (the slot's previous occupant,
if any), and the Item component of the newly spawned entity. -/
structure SetItemResult where
  inv : Inventory
  despawned : Option Nat
  spawned : Item
deriving Repr, DecidableEq

/-- Inventory::set_item: despawn the slot's existing occupant (if any),
spawn a fresh item entity (id newEnt) with amount 1 in the idle state,
auto-equip the slot when nothing is equipped, and store the new entity in
the slot.  Returns none when the slot index is out of bounds (the source
indexes the array directly, which panics). -/
def Inventory.set_item (inv : Inventory) (invEnt newEnt : Nat) (name : String)
    (slot : Nat) : Option SetItemResult :=
  match inv.item_ents.get? slot with
  | none => none
  | some existing =>
    let item : Item :=
      { name := name, amount := 1, state_name := IDLE_STATE, state_dur := 0,
        inv_ent := invEnt, inv_slot := slot }
    let inv2 :=
      if inv.equipped_slot = none then
        { inv with equipped_slot := some slot, equip_state_dur := 0,
                   equip_state_name := EQUIPPING_STATE }
      else inv
    some { inv := { inv2 with item_ents := inv2.item_ents.set slot (some newEnt) }
           despawned := existing
           spawned := item }

/-- Outcome of Inventory::insert_item: either the pickup was dropped (no
vacant slot, nothing spawned) or it was placed (with the deferred
despawn, if any, and the spawned Item). -/
inductive InsertOutcome where
  | dropped
  | placed (despawned : Option Nat) (spawned : Item)
deriving Repr, DecidableEq

/-- Inventory::insert_item: find the first vacant slot; if one exists,
set_item into it, otherwise do nothing (the item is dropped). -/
def Inventory.insert_item (inv : Inventory) (store : ItemStore)
    (invEnt newEnt : Nat) (name : String) : Option (Inventory × InsertOutcome) :=
  match inv.find_slot store (fun item => item.isNone) with
  | some openSlot =>
    match inv.set_item invEnt newEnt name openSlot with
    | none => none
    | some r => some (r.inv, InsertOutcome.placed r.despawned r.spawned)
  | none => some (inv, InsertOutcome.dropped)

/-- Apply the spawn/despawn commands of one insert outcome to the item
store (the new entity gets id newEnt). -/
def applyOutcome (store : ItemStore) (newEnt : Nat) : InsertOutcome → ItemStore
  | InsertOutcome.dropped => store
  | InsertOutcome.placed d it =>
    (newEnt, it) ::
      (match d with
       | some e => removeEnts [e] store
       | none => store)

/-- Per-tick catch-up loop of the equip state machine (the while loop of
modify_equip_state_sys), fuelled: while the elapsed duration exceeds the
dwell, apply the completion transition (equipping to equipped,
unequipping to unequipped, anything else unchanged) and subtract the
dwell. -/
def drainEquipFuel : Nat → String → Nat → String × Nat
  | 0, st, dur => (st, dur)
  | fuel + 1, st, dur =>
    if dwellMs < dur then
      drainEquipFuel fuel
        (if st = EQUIPPING_STATE then EQUIPPED_STATE
         else if st = UNEQUIPPING_STATE then UNEQUIPPED_STATE
         else st)
        (dur - dwellMs)
    else (st, dur)

/-- The equip catch-up loop.  Each iteration removes dwellMs > 0 from the
duration and the loop only runs while the duration exceeds dwellMs, so
dur / dwellMs + 1 iterations always suffice: the fuel never runs out. -/
def drainEquip (st : String) (dur : Nat) : String × Nat :=
  drainEquipFuel (dur / dwellMs + 1) st dur

/-- The has_valid_wanted expression of modify_equip_state_sys: the wanted
slot is present and the slot array entry at that raw index is occupied.
Indexing panics (none) when the wanted value is not below the array
length; when no slot is wanted the index is never evaluated. -/
def hasValidWanted (wanted : Option Nat) (ents : List (Option Nat)) : Option Bool :=
  match wanted with
  | none => some false
  | some w =>
    match ents.get? w with
    | none => none
    | some ent => some ent.isSome

/-- First stage of modify_equip_state_sys: a valid wanted slot that
differs from the equipped slot force-enters unequipping with elapsed
reset to zero, unless the machine is already unequipping. -/
def interruptStage (hvw : Bool) (wanted : Option Nat) (inv : Inventory) : Inventory :=
  if hvw = true ∧ wanted ≠ inv.equipped_slot ∧
      inv.equip_state_name ≠ UNEQUIPPING_STATE then
    { inv with equip_state_name := UNEQUIPPING_STATE, equip_state_dur := 0 }
  else inv

/-- Second stage of modify_equip_state_sys: accumulate the tick delta
(saturating add) and run the catch-up loop. -/
def afterDrain (delta : Nat) (inv : Inventory) : Inventory :=
  { inv with
    equip_state_name := (drainEquip inv.equip_state_name (inv.equip_state_dur + delta)).1
    equip_state_dur := (drainEquip inv.equip_state_name (inv.equip_state_dur + delta)).2 }

/-- Final stage of modify_equip_state_sys, reached when the machine is
unequipped: promote the valid wanted slot (recording the previous one),
or fall back to find_replacement; in both cases the state is set to
equipping (the source does not reset the elapsed duration here). -/
def equipReplace (hvw : Bool) (wanted : Option Nat) (store : ItemStore)
    (inv : Inventory) : Inventory :=
  if hvw = true then
    { inv with prev_equipped_slot := inv.equipped_slot, equipped_slot := wanted,
               equip_state_name := EQUIPPING_STATE }
  else
    { inv with equipped_slot := inv.find_replacement store,
               equip_state_name := EQUIPPING_STATE }

/-- The body of modify_equip_state_sys for one inventory.  Returns none
on panic (wanted-slot indexing out of bounds).  Otherwise returns the
updated inventory and a flag: true when the body hit one of the two
return statements (which in the source abort the whole system loop, not
just this inventory), false when it ran to completion. -/
def modifyEquipState (delta : Nat) (input : PlayerInput) (store : ItemStore)
    (inv : Inventory) : Option (Inventory × Bool) :=
  match hasValidWanted input.wanted_item_slot inv.item_ents with
  | none => none
  | some hvw =>
    let inv1 := interruptStage hvw input.wanted_item_slot inv
    if inv1.equipped_slot = none then some (inv1, true)
    else
      let inv2 := afterDrain delta inv1
      if inv2.equip_state_name ≠ UNEQUIPPED_STATE then some (inv2, true)
      else some (equipReplace hvw input.wanted_item_slot store inv2, false)

/-- The full modify_equip_state_sys: iterate the (PlayerInput, Inventory)
query in order.  A return inside the loop body exits the whole system
function, leaving every later inventory untouched; a panic (none) aborts
the tick. -/
def modifyEquipStateSys (delta : Nat) (store : ItemStore) :
    List (PlayerInput × Inventory) → Option (List Inventory)
  | [] => some []
  | (input, inv) :: rest =>
    match modifyEquipState delta input store inv with
    | none => none
    | some (inv2, true) => some (inv2 :: rest.map (fun p => p.2))
    | some (inv2, false) =>
      match modifyEquipStateSys delta store rest with
      | none => none
      | some rest2 => some (inv2 :: rest2)

/-- Per-tick catch-up loop of the item activity state machine (the while
loop of modify_item_sys), fuelled: idle, reload and fire all complete to
idle; any other state name hits unimplemented! and panics (none). -/
def drainItemFuel : Nat → String → Nat → Option (String × Nat)
  | 0, st, dur => some (st, dur)
  | fuel + 1, st, dur =>
    if dwellMs < dur then
      if st = IDLE_STATE ∨ st = RELOAD_STATE ∨ st = FIRE_STATE then
        drainItemFuel fuel IDLE_STATE (dur - dwellMs)
      else none
    else some (st, dur)

/-- The body of modify_item_sys for one item, given its owning inventory:
only the item in the owner's equipped slot accumulates time and drains
completed dwell periods; none models the unimplemented! panic on an
unmodeled activity state. -/
def modifyItem (delta : Nat) (inv : Inventory) (item : Item) : Option Item :=
  if inv.equipped_slot = some item.inv_slot then
    match drainItemFuel ((item.state_dur + delta) / dwellMs + 1)
        item.state_name (item.state_dur + delta) with
    | none => none
    | some sd => some { item with state_name := sd.1, state_dur := sd.2 }
  else some item

/-- An intersection event from the physics engine: two collider
entities. -/
structure IntersectionEvent where
  collider1 : Nat
  collider2 : Nat
deriving Repr, DecidableEq

/-- The world state that item_pickup_sys touches: pickup entities (with
their item names), inventory-owner entities, the live item store, and
the next entity id the command queue will allocate. -/
structure World where
  pickups : List (Nat × String)
  invs : List (Nat × Inventory)
  items : ItemStore
  nextEnt : Nat
deriving DecidableEq

/-- In-flight state of one run of item_pickup_sys: the live inventory
components, plus the deferred command queue (items spawned this run,
entities despawned this run) and the entity id counter.  Spawned items
and despawns are invisible to the queries until the run ends. -/
structure PickupPass where
  invs : List (Nat × Inventory)
  pending : ItemStore
  despawned : List Nat
  nextEnt : Nat

/-- One iteration of the event loop of item_pickup_sys: classify the two
entities of the event (either side may be the pickup); on a
(pickup, inventory-owner) match, insert the pickup's item into that
inventory and issue a deferred despawn for the pickup entity.  Lookup of
the matched pair uses unwrap, so a failed re-lookup would panic (none);
it cannot fail here by construction. -/
def processPickupEvent (pickups : List (Nat × String)) (items : ItemStore)
    (st : PickupPass) (ev : IntersectionEvent) : Option PickupPass :=
  let ent1 := ev.collider1
  let ent2 := ev.collider2
  let pair : Option (Nat × Nat) :=
    if (assocGet pickups ent1).isSome = true ∧ (assocGet st.invs ent2).isSome = true then
      some (ent1, ent2)
    else if (assocGet pickups ent2).isSome = true ∧ (assocGet st.invs ent1).isSome = true then
      some (ent2, ent1)
    else none
  match pair with
  | none => some st
  | some (pickupEnt, playerEnt) =>
    match assocGet pickups pickupEnt, assocGet st.invs playerEnt with
    | some itemName, some inv =>
      match inv.insert_item items playerEnt st.nextEnt itemName with
      | none => none
      | some (inv2, out) =>
        let st2 : PickupPass := { st with invs := assocSet st.invs playerEnt inv2 }
        let st3 : PickupPass :=
          match out with
          | InsertOutcome.dropped => st2
          | InsertOutcome.placed d it =>
            { st2 with
              pending := (st2.nextEnt, it) :: st2.pending
              nextEnt := st2.nextEnt + 1
              despawned :=
                (match d with | some e => [e] | none => []) ++ st2.despawned }
        some { st3 with despawned := pickupEnt :: st3.despawned }
    | _, _ => none

/-- Event loop of item_pickup_sys over this tick's event stream. -/
def itemPickupSysAux (pickups : List (Nat × String)) (items : ItemStore) :
    PickupPass → List IntersectionEvent → Option PickupPass
  | st, [] => some st
  | st, ev :: rest =>
    match processPickupEvent pickups items st ev with
    | none => none
    | some st2 => itemPickupSysAux pickups items st2 rest

/-- item_pickup_sys for one tick: run the event loop, then apply the
deferred commands (spawns become live items, despawned entities
disappear from both the pickup set and the item store). -/
def itemPickupSys (events : List IntersectionEvent) (w : World) : Option World :=
  match itemPickupSysAux w.pickups w.items
      { invs := w.invs, pending := [], despawned := [], nextEnt := w.nextEnt } events with
  | none => none
  | some st =>
    some { pickups := removeEnts st.despawned w.pickups
           invs := st.invs
           items := removeEnts st.despawned (st.pending ++ w.items)
           nextEnt := st.nextEnt }

/-- A slot of an inventory is occupied when it resolves to a live item
(this is the occupancy notion the slot allocator scans by). -/
def occupied (store : ItemStore) (inv : Inventory) (s : Nat) : Prop :=
  (slotItem store inv s).isSome = true

/-- Global state of one inventory for the reachability analysis: the
inventory, the live item store and the next fresh entity id. -/
structure GState where
  inv : Inventory
  store : ItemStore
  nextEnt : Nat

/-- The spawn state of an inventory: a default inventory, no items, no
entities allocated yet. -/
def initState : GState :=
  { inv := Inventory.default, store := [], nextEnt := 0 }

/-- One step of the subsystem on an inventory: either one equip-state
tick (any delta, any non-panicking input) or one resolved pickup (any
item name; the spawned entity id is fresh, and the commands it issues
are applied to the store). -/
inductive Step : GState → GState → Prop where
  | tick (g : GState) (delta : Nat) (input : PlayerInput) (inv2 : Inventory) (b : Bool) :
      modifyEquipState delta input g.store g.inv = some (inv2, b) →
      Step g { inv := inv2, store := g.store, nextEnt := g.nextEnt }
  | pickup (g : GState) (invEnt : Nat) (name : String) (inv2 : Inventory)
      (out : InsertOutcome) :
      g.inv.insert_item g.store invEnt g.nextEnt name = some (inv2, out) →
      Step g { inv := inv2, store := applyOutcome g.store g.nextEnt out,
               nextEnt := g.nextEnt + 1 }

/-- States reachable from spawn by any sequence of per-tick updates and
pickups. -/
def Reachable (g : GState) : Prop :=
  Relation.ReflTransGen Step initState g

/-- The inductive invariant tying an inventory to its item store:
ten slots, every slot reference live and fresh, equipped and previous
slots occupied, and an empty hand only in the unequipped rest state with
an all-empty inventory. -/
structure InvGood (g : GState) : Prop where
  len10 : g.inv.item_ents.length = 10
  live : ∀ s e, g.inv.item_ents.get? s = some (some e) →
    (lookupItem g.store e).isSome = true
  fresh : ∀ s e, g.inv.item_ents.get? s = some (some e) → e < g.nextEnt
  eq_occ : ∀ s, g.inv.equipped_slot = some s → occupied g.store g.inv s
  prev_occ : ∀ p, g.inv.prev_equipped_slot = some p → occupied g.store g.inv p
  none_unequipped : g.inv.equipped_slot = none →
    g.inv.equip_state_name = UNEQUIPPED_STATE
  none_empty : g.inv.equipped_slot = none →
    ∀ s, s < 10 → g.inv.item_ents.get? s = some none

/-! Concrete instances used by counterexamples and witnesses. -/

/-- A player input requesting no slot. -/
def inputNone : PlayerInput := { wanted_item_slot := none }

/-- A live rifle item in slot 0 of inventory entity 0. -/
def rifleItem : Item :=
  { name := "rifle", amount := 1, state_name := IDLE_STATE, state_dur := 0,
    inv_ent := 0, inv_slot := 0 }

/-- An item parked in an unmodeled activity state. -/
def burstItem : Item :=
  { name := "rifle", amount := 1, state_name := "burst", state_dur := 0,
    inv_ent := 0, inv_slot := 0 }

/-- An item store holding just the rifle as entity 1. -/
def storeOne : ItemStore := [(1, rifleItem)]

/-- Inventory with the rifle equipped in slot 0, mid-equip, elapsed 0. -/
def invEquipping : Inventory :=
  { equipped_slot := some 0, prev_equipped_slot := none,
    equip_state_name := EQUIPPING_STATE, equip_state_dur := 0,
    item_ents := some 1 :: List.replicate 9 none }

/-- Inventory with the rifle in slot 0, mid-unequip, elapsed 0. -/
def invUnequipping : Inventory :=
  { equipped_slot := some 0, prev_equipped_slot := none,
    equip_state_name := UNEQUIPPING_STATE, equip_state_dur := 0,
    item_ents := some 1 :: List.replicate 9 none }

/-- The result of one 2500 ms tick on invUnequipping. -/
def invRes2 : Inventory :=
  { equipped_slot := some 0, prev_equipped_slot := none,
    equip_state_name := EQUIPPING_STATE, equip_state_dur := 500,
    item_ents := some 1 :: List.replicate 9 none }

/-- Inventory whose equipped slot points at an empty slot array
(exercises the no-replacement branch of the replacement stage). -/
def invGhost : Inventory :=
  { equipped_slot := some 0, prev_equipped_slot := none,
    equip_state_name := UNEQUIPPING_STATE, equip_state_dur := 0,
    item_ents := List.replicate 10 none }

/-- Inventory parked in an unmodeled equip state tag. -/
def invBroken : Inventory :=
  { equipped_slot := some 0, prev_equipped_slot := none,
    equip_state_name := "broken", equip_state_dur := 0,
    item_ents := some 1 :: List.replicate 9 none }

/-- Item A, sitting in slot 0. -/
def itemA : Item :=
  { name := "ItemA", amount := 1, state_name := IDLE_STATE, state_dur := 0,
    inv_ent := 0, inv_slot := 0 }

/-- Item B, sitting in slot 2. -/
def itemB : Item :=
  { name := "ItemB", amount := 1, state_name := IDLE_STATE, state_dur := 0,
    inv_ent := 0, inv_slot := 2 }

/-- Store with ItemA as entity 1 and ItemB as entity 2. -/
def storeC4 : ItemStore := [(1, itemA), (2, itemB)]

/-- The replacement-policy scenario of the spec: slots [ItemA, None,
ItemB], equipped slot 0, previous slot unset, finishing an unequip. -/
def invC4 : Inventory :=
  { equipped_slot := some 0, prev_equipped_slot := none,
    equip_state_name := UNEQUIPPING_STATE, equip_state_dur := 0,
    item_ents := [some 1, none, some 2] ++ List.replicate 7 none }

/-- The C4 scenario but with a previously equipped slot recorded. -/
def invPrev : Inventory :=
  { equipped_slot := some 0, prev_equipped_slot := some 7,
    equip_state_name := UNEQUIPPING_STATE, equip_state_dur := 0,
    item_ents := [some 1, none, some 2] ++ List.replicate 7 none }

/-- The item spawned by the first pickup in the C1 witness run. -/
def item0W : Item :=
  { name := "rifle", amount := 1, state_name := IDLE_STATE, state_dur := 0,
    inv_ent := 9, inv_slot := 0 }

/-- Inventory after the first pickup in the C1 witness run. -/
def inv1W : Inventory :=
  { equipped_slot := some 0, prev_equipped_slot := none,
    equip_state_name := EQUIPPING_STATE, equip_state_dur := 0,
    item_ents := (List.replicate 10 (none : Option Nat)).set 0 (some 0) }

/-- Reachable state after one pickup from spawn. -/
def g1W : GState := { inv := inv1W, store := [(0, item0W)], nextEnt := 1 }

/-- Result of a concrete set_item call into slot 3 of a default
inventory (C8 witness). -/
def rSetW : SetItemResult :=
  { inv := { equipped_slot := some 3, prev_equipped_slot := none,
             equip_state_name := EQUIPPING_STATE, equip_state_dur := 0,
             item_ents := (List.replicate 10 (none : Option Nat)).set 3 (some 7) }
    despawned := none
    spawned := { name := "rifle", amount := 1, state_name := IDLE_STATE, state_dur := 0,
                 inv_ent := 9, inv_slot := 3 } }

/-- An item filling slot i of the full-inventory witness world. -/
def itemAt (i : Nat) : Item :=
  { name := "x", amount := 1, state_name := IDLE_STATE, state_dur := 0,
    inv_ent := 50, inv_slot := i }

/-- Ten occupied slots referencing entities 1 to 10. -/
def fullEnts : List (Option Nat) :=
  [some 1, some 2, some 3, some 4, some 5, some 6, some 7, some 8, some 9, some 10]

/-- Item store backing the ten occupied slots. -/
def fullStore : ItemStore :=
  [(1, itemAt 0), (2, itemAt 1), (3, itemAt 2), (4, itemAt 3), (5, itemAt 4),
   (6, itemAt 5), (7, itemAt 6), (8, itemAt 7), (9, itemAt 8), (10, itemAt 9)]

/-- A completely full inventory. -/
def fullInvW : Inventory :=
  { equipped_slot := some 0, prev_equipped_slot := none,
    equip_state_name := EQUIPPED_STATE, equip_state_dur := 0,
    item_ents := fullEnts }

/-- World with one pickup (entity 100) and one full inventory owner
(entity 50). -/
def wFullW : World :=
  { pickups := [(100, "extra")], invs := [(50, fullInvW)],
    items := fullStore, nextEnt := 200 }

/-! Basic lemmas about the stages of the equip-state system. -/

lemma interruptStage_equipped_slot (hvw : Bool) (w : Option Nat) (inv : Inventory) :
    (interruptStage hvw w inv).equipped_slot = inv.equipped_slot := by
  unfold interruptStage; split <;> rfl

lemma interruptStage_prev (hvw : Bool) (w : Option Nat) (inv : Inventory) :
    (interruptStage hvw w inv).prev_equipped_slot = inv.prev_equipped_slot := by
  unfold interruptStage; split <;> rfl

lemma interruptStage_item_ents (hvw : Bool) (w : Option Nat) (inv : Inventory) :
    (interruptStage hvw w inv).item_ents = inv.item_ents := by
  unfold interruptStage; split <;> rfl

lemma afterDrain_equipped_slot (delta : Nat) (inv : Inventory) :
    (afterDrain delta inv).equipped_slot = inv.equipped_slot := rfl

lemma afterDrain_prev (delta : Nat) (inv : Inventory) :
    (afterDrain delta inv).prev_equipped_slot = inv.prev_equipped_slot := rfl

lemma afterDrain_item_ents (delta : Nat) (inv : Inventory) :
    (afterDrain delta inv).item_ents = inv.item_ents := rfl

lemma equipReplace_item_ents (hvw : Bool) (w : Option Nat) (store : ItemStore)
    (inv : Inventory) : (equipReplace hvw w store inv).item_ents = inv.item_ents := by
  unfold equipReplace; split <;> rfl

lemma equipReplace_state (hvw : Bool) (w : Option Nat) (store : ItemStore)
    (inv : Inventory) :
    (equipReplace hvw w store inv).equip_state_name = EQUIPPING_STATE := by
  unfold equipReplace; split <;> rfl

lemma equipReplace_dur (hvw : Bool) (w : Option Nat) (store : ItemStore)
    (inv : Inventory) :
    (equipReplace hvw w store inv).equip_state_dur = inv.equip_state_dur := by
  unfold equipReplace; split <;> rfl

/-- Case analysis of one run of the modify_equip_state_sys body: either
it returned at the no-equipped-slot check, or it returned after the
catch-up loop with a state other than unequipped, or it fell through to
the replacement stage. -/
lemma modifyEquipState_spec (delta : Nat) (input : PlayerInput) (store : ItemStore)
    (inv inv2 : Inventory) (b : Bool)
    (h : modifyEquipState delta input store inv = some (inv2, b)) :
    ∃ hvw, hasValidWanted input.wanted_item_slot inv.item_ents = some hvw ∧
      (((interruptStage hvw input.wanted_item_slot inv).equipped_slot = none ∧
          b = true ∧ inv2 = interruptStage hvw input.wanted_item_slot inv)
        ∨ ((interruptStage hvw input.wanted_item_slot inv).equipped_slot ≠ none ∧
            (afterDrain delta (interruptStage hvw input.wanted_item_slot inv)).equip_state_name
              ≠ UNEQUIPPED_STATE ∧
            b = true ∧
            inv2 = afterDrain delta (interruptStage hvw input.wanted_item_slot inv))
        ∨ ((interruptStage hvw input.wanted_item_slot inv).equipped_slot ≠ none ∧
            (afterDrain delta (interruptStage hvw input.wanted_item_slot inv)).equip_state_name
              = UNEQUIPPED_STATE ∧
            b = false ∧
            inv2 = equipReplace hvw input.wanted_item_slot store
              (afterDrain delta (interruptStage hvw input.wanted_item_slot inv)))) := by
  unfold modifyEquipState at h
  rcases hw : hasValidWanted input.wanted_item_slot inv.item_ents with _ | hvw
  · rw [hw] at h; exact absurd h (by simp)
  · rw [hw] at h
    simp only [] at h
    refine ⟨hvw, rfl, ?_⟩
    by_cases h1 : (interruptStage hvw input.wanted_item_slot inv).equipped_slot = none
    · rw [if_pos h1] at h
      obtain ⟨h2, h3⟩ := Prod.mk.injEq .. ▸ Option.some.injEq .. ▸ h
      exact Or.inl ⟨h1, h3.symm, h2.symm⟩
    · rw [if_neg h1] at h
      by_cases h2 : (afterDrain delta (interruptStage hvw input.wanted_item_slot inv)).equip_state_name
          = UNEQUIPPED_STATE
      · rw [if_neg (by simpa using h2)] at h
        obtain ⟨h3, h4⟩ := Prod.mk.injEq .. ▸ Option.some.injEq .. ▸ h
        exact Or.inr (Or.inr ⟨h1, h2, h4.symm, h3.symm⟩)
      · rw [if_pos (by simpa using h2)] at h
        obtain ⟨h3, h4⟩ := Prod.mk.injEq .. ▸ Option.some.injEq .. ▸ h
        exact Or.inr (Or.inl ⟨h1, h2, h4.symm, h3.symm⟩)

/-! Characterization of the left-to-right slot scan. -/

lemma findSlotAux_eq_some (store : ItemStore) (p : Option Item → Bool) :
    ∀ (l : List (Option Nat)) (i k : Nat),
      findSlotAux store p i l = some k ↔
        ∃ j, j < l.length ∧ i + j = k ∧ p (entItem store (l.getD j none)) = true ∧
          ∀ m, m < j → p (entItem store (l.getD m none)) = false := by
  intro l
  induction l with
  | nil => intro i k; simp [findSlotAux]
  | cons ent rest ih =>
    intro i k
    unfold findSlotAux
    by_cases hp : p (entItem store ent) = true
    · rw [if_pos hp]
      constructor
      · intro h
        injection h with h
        exact ⟨0, by simp, by omega, by simpa using hp, fun m hm => absurd hm (by omega)⟩
      · rintro ⟨j, hj, hik, hpj, hmin⟩
        cases j with
        | zero => exact congrArg some (by omega)
        | succ j' => exact absurd (hmin 0 (by omega)) (by simpa using hp)
    · rw [if_neg hp]
      rw [ih (i + 1) k]
      constructor
      · rintro ⟨j, hj, hik, hpj, hmin⟩
        refine ⟨j + 1, by simpa using hj, by omega, by simpa using hpj, ?_⟩
        intro m hm
        cases m with
        | zero => simpa using hp
        | succ m' => simpa using hmin m' (by omega)
      · rintro ⟨j, hj, hik, hpj, hmin⟩
        cases j with
        | zero => exact absurd (by simpa using hpj) hp
        | succ j' =>
          exact ⟨j', by simpa using hj, by omega, by simpa using hpj,
            fun m hm => by simpa using hmin (m + 1) (by omega)⟩

lemma findSlotAux_eq_none (store : ItemStore) (p : Option Item → Bool) :
    ∀ (l : List (Option Nat)) (i : Nat),
      findSlotAux store p i l = none ↔
        ∀ j, j < l.length → p (entItem store (l.getD j none)) = false := by
  intro l
  induction l with
  | nil => intro i; simp [findSlotAux]
  | cons ent rest ih =>
    intro i
    unfold findSlotAux
    by_cases hp : p (entItem store ent) = true
    · rw [if_pos hp]
      refine iff_of_false (by simp) ?_
      intro hall
      have h0 := hall 0 (by simp)
      simp only [List.getD_cons_zero] at h0
      exact absurd h0 (by simp [hp])
    · rw [if_neg hp]
      rw [ih (i + 1)]
      constructor
      · intro h j hj
        cases j with
        | zero => simpa using hp
        | succ j' => simpa using h j' (by simpa using hj)
      · intro h j hj
        simpa using h (j + 1) (by simpa using hj)

lemma find_slot_eq_some (inv : Inventory) (store : ItemStore)
    (p : Option Item → Bool) (k : Nat) :
    inv.find_slot store p = some k ↔
      k < inv.item_ents.length ∧ p (slotItem store inv k) = true ∧
        ∀ j, j < k → p (slotItem store inv j) = false := by
  unfold Inventory.find_slot
  rw [findSlotAux_eq_some]
  unfold slotItem
  constructor
  · rintro ⟨j, hj, hik, hpj, hmin⟩
    have : j = k := by omega
    subst this
    exact ⟨hj, hpj, hmin⟩
  · rintro ⟨hk, hp, hmin⟩
    exact ⟨k, hk, by omega, hp, hmin⟩

lemma find_slot_eq_none (inv : Inventory) (store : ItemStore)
    (p : Option Item → Bool) :
    inv.find_slot store p = none ↔
      ∀ j, j < inv.item_ents.length → p (slotItem store inv j) = false := by
  unfold Inventory.find_slot
  rw [findSlotAux_eq_none]
  unfold slotItem
  exact Iff.rfl

/-! Further helper lemmas. -/

lemma interruptStage_false (w : Option Nat) (inv : Inventory) :
    interruptStage false w inv = inv := by
  unfold interruptStage
  rw [if_neg]
  rintro ⟨h, -⟩
  exact Bool.false_ne_true h

lemma find_replacement_congr (inv inv' : Inventory) (store : ItemStore)
    (hprev : inv.prev_equipped_slot = inv'.prev_equipped_slot)
    (hents : inv.item_ents = inv'.item_ents) :
    inv.find_replacement store = inv'.find_replacement store := by
  unfold Inventory.find_replacement Inventory.find_slot
  rw [hprev, hents]

lemma drainEquipFuel_unmodeled (st : String)
    (h1 : st ≠ EQUIPPING_STATE) (h2 : st ≠ UNEQUIPPING_STATE) :
    ∀ (fuel dur : Nat), (drainEquipFuel fuel st dur).1 = st := by
  intro fuel
  induction fuel with
  | zero => intro dur; rfl
  | succ f ih =>
    intro dur
    unfold drainEquipFuel
    rw [if_neg h1, if_neg h2]
    split
    · exact ih _
    · rfl

lemma drainEquip_unmodeled (st : String) (dur : Nat)
    (h1 : st ≠ EQUIPPING_STATE) (h2 : st ≠ UNEQUIPPING_STATE) :
    (drainEquip st dur).1 = st :=
  drainEquipFuel_unmodeled st h1 h2 _ dur

lemma hasValidWanted_oob (w : Nat) (ents : List (Option Nat))
    (h : ents.length ≤ w) : hasValidWanted (some w) ents = none := by
  unfold hasValidWanted
  dsimp only
  rw [List.get?_eq_none.mpr h]

lemma hasValidWanted_isSome_of_lt (w : Nat) (ents : List (Option Nat))
    (h : w < ents.length) : (hasValidWanted (some w) ents).isSome = true := by
  unfold hasValidWanted
  dsimp only
  rcases hg : ents.get? w with _ | ent
  · exact absurd (List.get?_eq_none.mp hg) (by omega)
  · rfl

lemma hasValidWanted_true (w : Option Nat) (ents : List (Option Nat))
    (h : hasValidWanted w ents = some true) :
    ∃ n e, w = some n ∧ ents.get? n = some (some e) := by
  unfold hasValidWanted at h
  rcases w with _ | n
  · exact absurd h (by simp)
  · dsimp only at h
    rcases hg : ents.get? n with _ | ent
    · rw [hg] at h; exact absurd h (by simp)
    · rw [hg] at h
      rcases ent with _ | e
      · exact absurd h (by simp)
      · exact ⟨n, e, rfl, hg⟩

lemma modifyEquipState_isSome (delta : Nat) (input : PlayerInput)
    (store : ItemStore) (inv : Inventory) (hvw : Bool)
    (h : hasValidWanted input.wanted_item_slot inv.item_ents = some hvw) :
    (modifyEquipState delta input store inv).isSome = true := by
  unfold modifyEquipState
  rw [h]
  dsimp only
  split
  · rfl
  · split <;> rfl

/-- C3: an inventory in state equipping with elapsed duration 0 and an
equipped slot set, ticked once with a 5000 ms delta and no wanted-slot
input, ends the tick in state equipped with elapsed duration 1000 ms:
the while loop drains two completed 2000 ms dwell periods within the one
tick and keeps the remainder. -/
theorem C3_dwell_catch_up (inv : Inventory) (s : Nat) (store : ItemStore)
    (h1 : inv.equip_state_name = EQUIPPING_STATE)
    (h2 : inv.equip_state_dur = 0)
    (h3 : inv.equipped_slot = some s) :
    modifyEquipState 5000 inputNone store inv =
      some ({ inv with equip_state_name := EQUIPPED_STATE,
                       equip_state_dur := 1000 }, true) := by
  have hd : drainEquip EQUIPPING_STATE (0 + 5000) = (EQUIPPED_STATE, 1000) := by decide
  unfold modifyEquipState
  have hw : hasValidWanted inputNone.wanted_item_slot inv.item_ents = some false := rfl
  rw [hw]
  dsimp only
  rw [interruptStage_false]
  rw [if_neg (by rw [h3]; simp)]
  unfold afterDrain
  rw [h1, h2, hd]
  dsimp only
  rw [if_pos (by decide)]

/-- C3 witness: the catch-up scenario on a concrete inventory. -/
theorem C3_dwell_catch_up_witness :
    modifyEquipState 5000 inputNone storeOne invEquipping =
      some ({ invEquipping with equip_state_name := EQUIPPED_STATE,
                                equip_state_dur := 1000 }, true) :=
  C3_dwell_catch_up invEquipping 0 storeOne rfl rfl rfl

/-- C4 counterexample: with slots [ItemA, None, ItemB], equipped slot 0,
no wanted input and no previous slot, the replacement chosen when the
machine reaches unequipped is slot 0 (the first occupied slot includes
the currently equipped one), not slot 2 as the claim states. -/
theorem C4_counterexample :
    (modifyEquipState 2500 inputNone storeC4 invC4).map (fun r => r.1.equipped_slot)
        = some (some 0)
    ∧ (modifyEquipState 2500 inputNone storeC4 invC4).map (fun r => r.1.equipped_slot)
        ≠ some (some 2) := by
  constructor
  · decide
  · decide

/-- C4 amended: if prev_equipped_slot is set it is the replacement;
otherwise the replacement is the first slot, in left-to-right index
order, holding a live item — with no exclusion of the currently equipped
slot.  In the [ItemA, None, ItemB] scenario with equipped slot 0 the
replacement is therefore slot 0, not slot 2. -/
theorem C4_amended_replacement_policy :
    (∀ (inv : Inventory) (store : ItemStore) (p : Nat),
        inv.prev_equipped_slot = some p → inv.find_replacement store = some p)
    ∧ (∀ (inv : Inventory) (store : ItemStore) (k : Nat),
        inv.prev_equipped_slot = none →
        (inv.find_replacement store = some k ↔
          k < inv.item_ents.length ∧ (slotItem store inv k).isSome = true ∧
            ∀ j, j < k → (slotItem store inv j).isSome = false))
    ∧ invC4.find_replacement storeC4 = some 0 := by
  refine ⟨?_, ?_, by decide⟩
  · intro inv store p h
    unfold Inventory.find_replacement
    rw [h]
    simp
  · intro inv store k h
    unfold Inventory.find_replacement
    rw [if_pos h]
    exact find_slot_eq_some inv store _ k

/-- C4 amended witness: a set previous slot is returned as the
replacement, and the first-live-slot characterization at slot 0. -/
theorem C4_amended_witness :
    invPrev.find_replacement storeC4 = some 7 ∧
    (invC4.find_replacement storeC4 = some 0 ↔
      0 < invC4.item_ents.length ∧ (slotItem storeC4 invC4 0).isSome = true ∧
        ∀ j, j < 0 → (slotItem storeC4 invC4 j).isSome = false) :=
  ⟨C4_amended_replacement_policy.1 invPrev storeC4 7 rfl,
   C4_amended_replacement_policy.2.1 invC4 storeC4 0 rfl⟩

/-- C2 counterexample: finishing an unequip with a 500 ms remainder, the
machine enters equipping with elapsed 500 ms — not 0 as claimed; and
when no replacement exists (no occupied slot, no previous slot) the
state is still set to equipping with no slot equipped — it does not
remain unequipped. -/
theorem C2_counterexample :
    (modifyEquipState 2500 inputNone storeOne invUnequipping).map
        (fun r => (r.1.equip_state_name, r.1.equip_state_dur, r.2))
      = some (EQUIPPING_STATE, 500, false)
    ∧ (modifyEquipState 2500 inputNone [] invGhost).map
        (fun r => (r.1.equipped_slot, r.1.equip_state_name, r.2))
      = some (none, EQUIPPING_STATE, false) := by
  constructor
  · decide
  · decide

/-- C2 amended: whenever the body falls through to the replacement stage
(the state after the catch-up loop is unequipped), the machine selects
the valid wanted slot (recording the previous one) or else the slot
allocator's replacement — which may be none — and in every case enters
equipping with the elapsed duration left by the catch-up loop (it is not
reset to 0, and the state is set to equipping even when no replacement
exists). -/
theorem C2_amended_replacement_stage (delta : Nat) (input : PlayerInput)
    (store : ItemStore) (inv inv2 : Inventory)
    (h : modifyEquipState delta input store inv = some (inv2, false))
    (hvw : Bool)
    (hw : hasValidWanted input.wanted_item_slot inv.item_ents = some hvw) :
    inv2.equip_state_name = EQUIPPING_STATE
    ∧ inv2.equip_state_dur =
        (afterDrain delta (interruptStage hvw input.wanted_item_slot inv)).equip_state_dur
    ∧ (hvw = true → inv2.equipped_slot = input.wanted_item_slot ∧
        inv2.prev_equipped_slot = inv.equipped_slot)
    ∧ (hvw = false → inv2.equipped_slot = inv.find_replacement store ∧
        inv2.prev_equipped_slot = inv.prev_equipped_slot) := by
  obtain ⟨hvw', hw', hcases⟩ := modifyEquipState_spec delta input store inv inv2 false h
  have hveq : hvw' = hvw := by
    rw [hw] at hw'
    exact (Option.some.injEq .. ▸ hw').symm
  subst hveq
  rcases hcases with ⟨-, hb, -⟩ | ⟨-, -, hb, -⟩ | ⟨-, -, -, hinv2⟩
  · exact absurd hb (by simp)
  · exact absurd hb (by simp)
  · subst hinv2
    refine ⟨equipReplace_state .., ?_, ?_, ?_⟩
    · rw [equipReplace_dur]
    · intro hb
      subst hb
      unfold equipReplace
      rw [if_pos rfl]
      refine ⟨rfl, ?_⟩
      show (afterDrain delta (interruptStage true input.wanted_item_slot inv)).equipped_slot
          = inv.equipped_slot
      rw [afterDrain_equipped_slot, interruptStage_equipped_slot]
    · intro hb
      subst hb
      unfold equipReplace
      rw [if_neg (by simp)]
      constructor
      · show (afterDrain delta (interruptStage false input.wanted_item_slot inv)).find_replacement store
            = inv.find_replacement store
        refine find_replacement_congr _ _ store ?_ ?_
        · rw [afterDrain_prev, interruptStage_prev]
        · rw [afterDrain_item_ents, interruptStage_item_ents]
      · show (afterDrain delta (interruptStage false input.wanted_item_slot inv)).prev_equipped_slot
            = inv.prev_equipped_slot
        rw [afterDrain_prev, interruptStage_prev]

/-- C2 amended witness: the replacement stage on a concrete unequip whose
catch-up loop leaves a 500 ms remainder. -/
theorem C2_amended_witness :
    invRes2.equip_state_name = EQUIPPING_STATE
    ∧ invRes2.equip_state_dur =
        (afterDrain 2500 (interruptStage false inputNone.wanted_item_slot invUnequipping)).equip_state_dur
    ∧ (false = true → invRes2.equipped_slot = inputNone.wanted_item_slot ∧
        invRes2.prev_equipped_slot = invUnequipping.equipped_slot)
    ∧ (false = false → invRes2.equipped_slot = invUnequipping.find_replacement storeOne ∧
        invRes2.prev_equipped_slot = invUnequipping.prev_equipped_slot) :=
  C2_amended_replacement_stage 2500 inputNone storeOne invUnequipping invRes2
    (by decide) false rfl

/-- C7 counterexample: the equip state machine is not fatal on an
unmodeled state tag.  An inventory parked in state "broken" with a tick
delta past the dwell completes its update normally (no abort): the tag
is silently kept and the dwell period is silently consumed. -/
theorem C7_counterexample :
    (modifyEquipState 2500 inputNone storeOne invBroken).map
        (fun r => (r.1.equip_state_name, r.1.equip_state_dur))
      = some ("broken", 500) := by decide

/-- C7 amended: only the item activity state machine is fatal on an
unmodeled state tag (unimplemented! aborts the update); the equip state
machine silently keeps an unmodeled tag, treating it as having no
completion transition, and finishes its update normally. -/
theorem C7_amended_unmodeled_tags :
    (∀ (delta : Nat) (inv : Inventory) (item : Item),
      inv.equipped_slot = some item.inv_slot →
      item.state_name ≠ IDLE_STATE → item.state_name ≠ RELOAD_STATE →
      item.state_name ≠ FIRE_STATE →
      dwellMs < item.state_dur + delta →
      modifyItem delta inv item = none)
    ∧ (∀ (delta : Nat) (store : ItemStore) (inv : Inventory),
        inv.equip_state_name ≠ EQUIPPING_STATE →
        inv.equip_state_name ≠ UNEQUIPPING_STATE →
        inv.equip_state_name ≠ UNEQUIPPED_STATE →
        ∃ inv2, modifyEquipState delta inputNone store inv = some (inv2, true) ∧
          inv2.equip_state_name = inv.equip_state_name) := by
  constructor
  · intro delta inv item h1 h2 h3 h4 h5
    unfold modifyItem
    rw [if_pos h1]
    have : drainItemFuel ((item.state_dur + delta) / dwellMs + 1)
        item.state_name (item.state_dur + delta) = none := by
      unfold drainItemFuel
      rw [if_pos h5, if_neg (by tauto)]
    rw [this]
  · intro delta store inv h1 h2 h3
    unfold modifyEquipState
    have hw : hasValidWanted inputNone.wanted_item_slot inv.item_ents = some false := rfl
    rw [hw]
    dsimp only
    rw [interruptStage_false]
    rcases he : inv.equipped_slot with _ | s
    · rw [if_pos rfl]
      exact ⟨inv, rfl, rfl⟩
    · rw [if_neg (by simp)]
      have hst : (afterDrain delta inv).equip_state_name = inv.equip_state_name := by
        unfold afterDrain
        exact drainEquip_unmodeled _ _ h1 h2
      rw [if_pos (by rw [hst]; exact h3)]
      exact ⟨afterDrain delta inv, rfl, hst⟩

/-- C7 amended witness: the activity machine aborts on tag "burst" while
the equip machine completes on tag "broken". -/
theorem C7_amended_witness :
    modifyItem 2500 invEquipping burstItem = none
    ∧ ∃ inv2, modifyEquipState 2500 inputNone storeOne invBroken = some (inv2, true) ∧
        inv2.equip_state_name = invBroken.equip_state_name :=
  ⟨C7_amended_unmodeled_tags.1 2500 invEquipping burstItem (by decide) (by decide)
      (by decide) (by decide) (by decide),
   C7_amended_unmodeled_tags.2 2500 storeOne invBroken (by decide) (by decide) (by decide)⟩

/-- C10: the equip-state update indexes the 10-slot array with the raw
wanted-slot value, unchecked: an absent or in-range (0–9) wanted slot
never panics on it, while a wanted slot of 10 or more panics (aborts)
instead of being ignored. -/
theorem C10_wanted_slot_indexing (delta : Nat) (input : PlayerInput)
    (store : ItemStore) (inv : Inventory)
    (hlen : inv.item_ents.length = 10) :
    ((input.wanted_item_slot = none ∨
        ∃ w, input.wanted_item_slot = some w ∧ w < 10) →
      (modifyEquipState delta input store inv).isSome = true)
    ∧ (∀ w, input.wanted_item_slot = some w → 10 ≤ w →
        modifyEquipState delta input store inv = none) := by
  constructor
  · rintro (hn | ⟨w, hw, hlt⟩)
    · refine modifyEquipState_isSome delta input store inv false ?_
      rw [hn]
      rfl
    · have hs : (hasValidWanted input.wanted_item_slot inv.item_ents).isSome = true := by
        rw [hw]
        exact hasValidWanted_isSome_of_lt w _ (by omega)
      rcases ho : hasValidWanted input.wanted_item_slot inv.item_ents with _ | hvw
      · rw [ho] at hs; exact absurd hs (by simp)
      · exact modifyEquipState_isSome delta input store inv hvw ho
  · intro w hw hge
    unfold modifyEquipState
    rw [hw, hasValidWanted_oob w _ (by omega)]

/-- C10 witness: no panic for wanted slot 9, panic for wanted slot 10, on
a concrete inventory. -/
theorem C10_wanted_slot_indexing_witness :
    (modifyEquipState 5 { wanted_item_slot := some 9 } storeOne invEquipping).isSome = true
    ∧ modifyEquipState 5 { wanted_item_slot := some 10 } storeOne invEquipping = none :=
  ⟨(C10_wanted_slot_indexing 5 { wanted_item_slot := some 9 } storeOne invEquipping
      (by decide)).1 (Or.inr ⟨9, rfl, by decide⟩),
   (C10_wanted_slot_indexing 5 { wanted_item_slot := some 10 } storeOne invEquipping
      (by decide)).2 10 rfl (by decide)⟩

/-- C5 (code bug in the source): the per-tick equip update is not
independent across inventories.  The body's return statements exit the
whole system loop, so an inventory with nothing equipped aborts the tick
for every later inventory: here the second inventory, mid-equip with a
2500 ms delta pending, comes back completely unchanged from the system
run, although processed on its own the same tick advances it to
equipped. -/
theorem C5_early_return_freezes_later_inventories :
    modifyEquipStateSys 2500 storeOne
        [(inputNone, Inventory.default), (inputNone, invEquipping)]
      = some [Inventory.default, invEquipping]
    ∧ (modifyEquipState 2500 inputNone storeOne invEquipping).map
        (fun r => (r.1.equip_state_name, r.1.equip_state_dur))
      = some (EQUIPPED_STATE, 500) := by
  constructor
  · decide
  · decide

/-! Helper lemmas for the reachability invariant. -/

lemma lookupItem_cons (n : Nat) (it : Item) (store : ItemStore) (e : Nat) :
    lookupItem ((n, it) :: store) e = if n = e then some it else lookupItem store e := by
  unfold lookupItem assocGet
  rw [List.find?_cons]
  by_cases h : n = e
  · simp [h]
  · have hb : (n == e) = false := by simpa using h
    rw [if_neg h]
    rw [hb]

lemma slotItem_isSome_iff (store : ItemStore) (inv : Inventory) (s : Nat) :
    (slotItem store inv s).isSome = true ↔
      ∃ e, inv.item_ents.get? s = some (some e) ∧
        (lookupItem store e).isSome = true := by
  unfold slotItem entItem
  have hgd : inv.item_ents.getD s none = (inv.item_ents.get? s).getD none := rfl
  rw [hgd]
  rcases hg : inv.item_ents.get? s with _ | oe
  · simp
  · rcases oe with _ | e
    · simp
    · simp

lemma occupied_iff (store : ItemStore) (inv : Inventory) (s : Nat) :
    occupied store inv s ↔
      ∃ e, inv.item_ents.get? s = some (some e) ∧
        (lookupItem store e).isSome = true := by
  unfold occupied
  exact slotItem_isSome_iff store inv s

lemma occupied_lt_length (store : ItemStore) (inv : Inventory) (s : Nat)
    (h : occupied store inv s) : s < inv.item_ents.length := by
  rw [occupied_iff] at h
  obtain ⟨e, he, -⟩ := h
  obtain ⟨hlt, -⟩ := List.get?_eq_some.mp he
  exact hlt

lemma occupied_congr (store : ItemStore) (inv inv' : Inventory)
    (h : inv.item_ents = inv'.item_ents) (s : Nat)
    (ho : occupied store inv s) : occupied store inv' s := by
  rw [occupied_iff] at ho ⊢
  rw [← h]
  exact ho

lemma find_replacement_prev_some (inv : Inventory) (store : ItemStore) (p : Nat)
    (h : inv.prev_equipped_slot = some p) : inv.find_replacement store = some p := by
  unfold Inventory.find_replacement
  rw [h]
  simp

lemma find_replacement_prev_none (inv : Inventory) (store : ItemStore)
    (h : inv.prev_equipped_slot = none) :
    inv.find_replacement store = inv.find_slot store (fun item => item.isSome) := by
  unfold Inventory.find_replacement
  rw [if_pos h]

lemma find_replacement_occupied (inv : Inventory) (store : ItemStore) (s : Nat)
    (hocc : occupied store inv s)
    (hprev : ∀ p, inv.prev_equipped_slot = some p → occupied store inv p) :
    ∃ k, inv.find_replacement store = some k ∧ occupied store inv k := by
  rcases hp : inv.prev_equipped_slot with _ | p
  · rw [find_replacement_prev_none inv store hp]
    rcases hfs : inv.find_slot store (fun item => item.isSome) with _ | k
    · exfalso
      have hall := (find_slot_eq_none inv store _).mp hfs
      have hlt := occupied_lt_length store inv s hocc
      have hfalse : (slotItem store inv s).isSome = false := by simpa using hall s hlt
      unfold occupied at hocc
      rw [hocc] at hfalse
      exact Bool.noConfusion hfalse
    · have hc := (find_slot_eq_some inv store _ k).mp hfs
      exact ⟨k, rfl, by simpa [occupied] using hc.2.1⟩
  · exact ⟨p, find_replacement_prev_some inv store p hp, hprev p hp⟩

lemma hvw_false_of_all_empty (wanted : Option Nat) (ents : List (Option Nat))
    (hvw : Bool) (hlen : ents.length = 10)
    (hempty : ∀ s, s < 10 → ents.get? s = some none)
    (hw : hasValidWanted wanted ents = some hvw) : hvw = false := by
  rcases wanted with _ | w
  · have : some false = some hvw := by rw [← hw]; rfl
    simpa using this.symm
  · by_cases hlt : w < 10
    · have he := hempty w hlt
      unfold hasValidWanted at hw
      dsimp only at hw
      rw [he] at hw
      have : some false = some hvw := by rw [← hw]; rfl
      simpa using this.symm
    · rw [hasValidWanted_oob w ents (by omega)] at hw
      exact absurd hw (by simp)

lemma equipReplace_true_equipped (w : Option Nat) (store : ItemStore) (inv : Inventory) :
    (equipReplace true w store inv).equipped_slot = w := by
  unfold equipReplace
  rw [if_pos rfl]

lemma equipReplace_true_prev (w : Option Nat) (store : ItemStore) (inv : Inventory) :
    (equipReplace true w store inv).prev_equipped_slot = inv.equipped_slot := by
  unfold equipReplace
  rw [if_pos rfl]

lemma equipReplace_false_equipped (w : Option Nat) (store : ItemStore) (inv : Inventory) :
    (equipReplace false w store inv).equipped_slot = inv.find_replacement store := by
  unfold equipReplace
  rw [if_neg (by simp)]

lemma equipReplace_false_prev (w : Option Nat) (store : ItemStore) (inv : Inventory) :
    (equipReplace false w store inv).prev_equipped_slot = inv.prev_equipped_slot := by
  unfold equipReplace
  rw [if_neg (by simp)]

lemma invGood_init : InvGood initState := by
  constructor
  · rfl
  · intro s e h
    have hmem := List.get?_mem h
    exact absurd (List.eq_of_mem_replicate hmem) (by simp)
  · intro s e h
    have hmem := List.get?_mem h
    exact absurd (List.eq_of_mem_replicate hmem) (by simp)
  · intro s h
    exact absurd h (by simp [initState, Inventory.default])
  · intro p h
    exact absurd h (by simp [initState, Inventory.default])
  · intro _
    rfl
  · intro _ s hs
    show (List.replicate 10 (none : Option Nat)).get? s = some none
    rw [List.get?_eq_get (by simpa using hs)]
    rw [List.get_replicate]

lemma invGood_tick (g : GState) (delta : Nat) (input : PlayerInput)
    (inv2 : Inventory) (b : Bool) (hg : InvGood g)
    (h : modifyEquipState delta input g.store g.inv = some (inv2, b)) :
    InvGood { inv := inv2, store := g.store, nextEnt := g.nextEnt } := by
  obtain ⟨hvw, hw, hcases⟩ := modifyEquipState_spec delta input g.store g.inv inv2 b h
  rcases hcases with ⟨h1, -, hinv2⟩ | ⟨h1, -, -, hinv2⟩ | ⟨h1, -, -, hinv2⟩
  · -- returned at the empty-hand check: nothing changed
    rw [interruptStage_equipped_slot] at h1
    have hfw : hvw = false :=
      hvw_false_of_all_empty input.wanted_item_slot g.inv.item_ents hvw
        hg.len10 (hg.none_empty h1) hw
    subst hfw
    rw [interruptStage_false] at hinv2
    subst hinv2
    exact ⟨hg.len10, hg.live, hg.fresh, hg.eq_occ, hg.prev_occ,
      hg.none_unequipped, hg.none_empty⟩
  · -- returned after the drain: only the state name and duration changed
    subst hinv2
    have hents : (afterDrain delta (interruptStage hvw input.wanted_item_slot g.inv)).item_ents
        = g.inv.item_ents := by
      rw [afterDrain_item_ents, interruptStage_item_ents]
    have hequip : (afterDrain delta (interruptStage hvw input.wanted_item_slot g.inv)).equipped_slot
        = g.inv.equipped_slot := by
      rw [afterDrain_equipped_slot, interruptStage_equipped_slot]
    have hprev : (afterDrain delta (interruptStage hvw input.wanted_item_slot g.inv)).prev_equipped_slot
        = g.inv.prev_equipped_slot := by
      rw [afterDrain_prev, interruptStage_prev]
    refine ⟨?_, ?_, ?_, ?_, ?_, ?_, ?_⟩
    · rw [hents]; exact hg.len10
    · intro s e hse; rw [hents] at hse; exact hg.live s e hse
    · intro s e hse; rw [hents] at hse; exact hg.fresh s e hse
    · intro s hs
      rw [hequip] at hs
      exact occupied_congr g.store g.inv _ hents.symm s (hg.eq_occ s hs)
    · intro p hp
      rw [hprev] at hp
      exact occupied_congr g.store g.inv _ hents.symm p (hg.prev_occ p hp)
    · intro hn
      rw [afterDrain_equipped_slot] at hn
      exact absurd hn h1
    · intro hn
      rw [afterDrain_equipped_slot] at hn
      exact absurd hn h1
  · -- fell through to the replacement stage
    subst hinv2
    have hentsD : (afterDrain delta (interruptStage hvw input.wanted_item_slot g.inv)).item_ents
        = g.inv.item_ents := by
      rw [afterDrain_item_ents, interruptStage_item_ents]
    have hents : (equipReplace hvw input.wanted_item_slot g.store
          (afterDrain delta (interruptStage hvw input.wanted_item_slot g.inv))).item_ents
        = g.inv.item_ents := by
      rw [equipReplace_item_ents, hentsD]
    have hprevD : (afterDrain delta (interruptStage hvw input.wanted_item_slot g.inv)).prev_equipped_slot
        = g.inv.prev_equipped_slot := by
      rw [afterDrain_prev, interruptStage_prev]
    have hequipD : (afterDrain delta (interruptStage hvw input.wanted_item_slot g.inv)).equipped_slot
        = g.inv.equipped_slot := by
      rw [afterDrain_equipped_slot, interruptStage_equipped_slot]
    cases hvw with
    | true =>
      obtain ⟨n, e, hwn, hge⟩ := hasValidWanted_true input.wanted_item_slot g.inv.item_ents hw
      have hequip2 : (equipReplace true input.wanted_item_slot g.store
            (afterDrain delta (interruptStage true input.wanted_item_slot g.inv))).equipped_slot
          = some n := by
        rw [equipReplace_true_equipped, hwn]
      have hprev2 : (equipReplace true input.wanted_item_slot g.store
            (afterDrain delta (interruptStage true input.wanted_item_slot g.inv))).prev_equipped_slot
          = g.inv.equipped_slot := by
        rw [equipReplace_true_prev, hequipD]
      refine ⟨?_, ?_, ?_, ?_, ?_, ?_, ?_⟩
      · rw [hents]; exact hg.len10
      · intro s e2 hse; rw [hents] at hse; exact hg.live s e2 hse
      · intro s e2 hse; rw [hents] at hse; exact hg.fresh s e2 hse
      · intro s hs
        rw [hequip2] at hs
        obtain rfl : n = s := by simpa using hs
        refine occupied_congr g.store g.inv _ hents.symm n ?_
        rw [occupied_iff]
        exact ⟨e, hge, hg.live n e hge⟩
      · intro p hp
        rw [hprev2] at hp
        exact occupied_congr g.store g.inv _ hents.symm p (hg.eq_occ p hp)
      · intro hn
        rw [hequip2] at hn
        exact absurd hn (by simp)
      · intro hn
        rw [hequip2] at hn
        exact absurd hn (by simp)
    | false =>
      rw [interruptStage_equipped_slot] at h1
      obtain ⟨s0, hs0⟩ := Option.ne_none_iff_exists'.mp h1
      obtain ⟨k, hk, hkocc⟩ :=
        find_replacement_occupied g.inv g.store s0 (hg.eq_occ s0 hs0) hg.prev_occ
      have hfr : (afterDrain delta (interruptStage false input.wanted_item_slot g.inv)).find_replacement g.store
          = g.inv.find_replacement g.store :=
        find_replacement_congr _ _ g.store hprevD hentsD
      have hequip2 : (equipReplace false input.wanted_item_slot g.store
            (afterDrain delta (interruptStage false input.wanted_item_slot g.inv))).equipped_slot
          = some k := by
        rw [equipReplace_false_equipped, hfr, hk]
      have hprev2 : (equipReplace false input.wanted_item_slot g.store
            (afterDrain delta (interruptStage false input.wanted_item_slot g.inv))).prev_equipped_slot
          = g.inv.prev_equipped_slot := by
        rw [equipReplace_false_prev, hprevD]
      refine ⟨?_, ?_, ?_, ?_, ?_, ?_, ?_⟩
      · rw [hents]; exact hg.len10
      · intro s e2 hse; rw [hents] at hse; exact hg.live s e2 hse
      · intro s e2 hse; rw [hents] at hse; exact hg.fresh s e2 hse
      · intro s hs
        rw [hequip2] at hs
        obtain rfl : k = s := by simpa using hs
        exact occupied_congr g.store g.inv _ hents.symm k hkocc
      · intro p hp
        rw [hprev2] at hp
        exact occupied_congr g.store g.inv _ hents.symm p (hg.prev_occ p hp)
      · intro hn
        rw [hequip2] at hn
        exact absurd hn (by simp)
      · intro hn
        rw [hequip2] at hn
        exact absurd hn (by simp)

lemma occupied_after_insert (store : ItemStore) (inv inv' : Inventory)
    (k n : Nat) (it : Item) (p : Nat)
    (hk : k < inv.item_ents.length)
    (hents : inv'.item_ents = inv.item_ents.set k (some n))
    (hfresh : ∀ s e, inv.item_ents.get? s = some (some e) → e < n)
    (hocc : occupied store inv p) :
    occupied ((n, it) :: store) inv' p := by
  rw [occupied_iff] at hocc ⊢
  obtain ⟨e, hge, hl⟩ := hocc
  by_cases hpk : p = k
  · subst hpk
    refine ⟨n, ?_, ?_⟩
    · rw [hents]
      exact List.get?_set_eq_of_lt _ hk
    · rw [lookupItem_cons, if_pos rfl]
      rfl
  · refine ⟨e, ?_, ?_⟩
    · rw [hents, List.get?_set_ne _ _ (fun hh => hpk hh.symm)]
      exact hge
    · have hen : e < n := hfresh p e hge
      rw [lookupItem_cons, if_neg (by omega)]
      exact hl

lemma invGood_pickup (g : GState) (invEnt : Nat) (name : String)
    (inv2 : Inventory) (out : InsertOutcome) (hg : InvGood g)
    (h : g.inv.insert_item g.store invEnt g.nextEnt name = some (inv2, out)) :
    InvGood { inv := inv2, store := applyOutcome g.store g.nextEnt out,
              nextEnt := g.nextEnt + 1 } := by
  unfold Inventory.insert_item at h
  rcases hfs : g.inv.find_slot g.store (fun item => item.isNone) with _ | k
  · -- no vacant slot: the pickup is dropped, nothing changes
    rw [hfs] at h
    have h2 := Option.some.inj h
    obtain ⟨h3, h4⟩ := Prod.mk.injEq .. ▸ h2
    subst h3
    subst h4
    exact ⟨hg.len10, hg.live, fun s e hse => Nat.lt_succ_of_lt (hg.fresh s e hse),
      hg.eq_occ, hg.prev_occ, hg.none_unequipped, hg.none_empty⟩
  · -- vacant slot k: a fresh item entity is spawned into it
    rw [hfs] at h
    dsimp only at h
    have hc := (find_slot_eq_some g.inv g.store _ k).mp hfs
    have hk10 : k < g.inv.item_ents.length := hc.1
    have hkempty : g.inv.item_ents.get? k = some none := by
      rcases hgk : g.inv.item_ents.get? k with _ | oe
      · exact absurd (List.get?_eq_none.mp hgk) (by omega)
      · rcases oe with _ | e
        · rfl
        · exfalso
          have hlive := hg.live k e hgk
          have hsl : slotItem g.store g.inv k = lookupItem g.store e := by
            unfold slotItem entItem
            have hgd : g.inv.item_ents.getD k none
                = (g.inv.item_ents.get? k).getD none := rfl
            rw [hgd, hgk]
            rfl
          have hnone : (slotItem g.store g.inv k).isNone = true := by
            simpa using hc.2.1
          rw [hsl] at hnone
          rcases hl : lookupItem g.store e with _ | it
          · rw [hl] at hlive
            exact Bool.noConfusion hlive
          · rw [hl] at hnone
            simp at hnone
    unfold Inventory.set_item at h
    rw [hkempty] at h
    dsimp only at h
    by_cases heq : g.inv.equipped_slot = none
    · rw [if_pos heq] at h
      have h2 := Option.some.inj h
      obtain ⟨h3, h4⟩ := Prod.mk.injEq .. ▸ h2
      subst h3
      subst h4
      dsimp only [applyOutcome]
      refine ⟨?_, ?_, ?_, ?_, ?_, ?_, ?_⟩
      · simpa using hg.len10
      · intro s e hse
        by_cases hsk : s = k
        · subst hsk
          rw [List.get?_set_eq_of_lt _ (by simpa using hk10)] at hse
          obtain rfl : g.nextEnt = e := by simpa using hse
          rw [lookupItem_cons, if_pos rfl]
          rfl
        · rw [List.get?_set_ne _ _ (fun hh => hsk hh.symm)] at hse
          have hen := hg.fresh s e hse
          rw [lookupItem_cons, if_neg (by omega)]
          exact hg.live s e hse
      · intro s e hse
        by_cases hsk : s = k
        · subst hsk
          rw [List.get?_set_eq_of_lt _ (by simpa using hk10)] at hse
          obtain rfl : g.nextEnt = e := by simpa using hse
          exact Nat.lt_succ_self _
        · rw [List.get?_set_ne _ _ (fun hh => hsk hh.symm)] at hse
          exact Nat.lt_succ_of_lt (hg.fresh s e hse)
      · intro s hs
        obtain rfl : k = s := by simpa using hs
        rw [occupied_iff]
        refine ⟨g.nextEnt, ?_, ?_⟩
        · exact List.get?_set_eq_of_lt _ (by simpa using hk10)
        · rw [lookupItem_cons, if_pos rfl]
          rfl
      · intro p hp
        have hold := hg.prev_occ p (by simpa using hp)
        exact occupied_after_insert g.store g.inv _ k g.nextEnt _ p hk10 rfl
          hg.fresh hold
      · intro hn
        exact absurd hn (by simp)
      · intro hn
        exact absurd hn (by simp)
    · rw [if_neg heq] at h
      have h2 := Option.some.inj h
      obtain ⟨h3, h4⟩ := Prod.mk.injEq .. ▸ h2
      subst h3
      subst h4
      dsimp only [applyOutcome]
      refine ⟨?_, ?_, ?_, ?_, ?_, ?_, ?_⟩
      · simpa using hg.len10
      · intro s e hse
        by_cases hsk : s = k
        · subst hsk
          rw [List.get?_set_eq_of_lt _ (by simpa using hk10)] at hse
          obtain rfl : g.nextEnt = e := by simpa using hse
          rw [lookupItem_cons, if_pos rfl]
          rfl
        · rw [List.get?_set_ne _ _ (fun hh => hsk hh.symm)] at hse
          have hen := hg.fresh s e hse
          rw [lookupItem_cons, if_neg (by omega)]
          exact hg.live s e hse
      · intro s e hse
        by_cases hsk : s = k
        · subst hsk
          rw [List.get?_set_eq_of_lt _ (by simpa using hk10)] at hse
          obtain rfl : g.nextEnt = e := by simpa using hse
          exact Nat.lt_succ_self _
        · rw [List.get?_set_ne _ _ (fun hh => hsk hh.symm)] at hse
          exact Nat.lt_succ_of_lt (hg.fresh s e hse)
      · intro s hs
        have hold := hg.eq_occ s (by simpa using hs)
        exact occupied_after_insert g.store g.inv _ k g.nextEnt _ s hk10 rfl
          hg.fresh hold
      · intro p hp
        have hold := hg.prev_occ p (by simpa using hp)
        exact occupied_after_insert g.store g.inv _ k g.nextEnt _ p hk10 rfl
          hg.fresh hold
      · intro hn
        exact absurd (by simpa using hn) heq
      · intro hn
        exact absurd (by simpa using hn) heq

lemma reachable_invGood (g : GState) (h : Reachable g) : InvGood g := by
  unfold Reachable at h
  induction h with
  | refl => exact invGood_init
  | tail hsteps hstep ih =>
    cases hstep with
    | tick delta input inv2 b heq =>
      exact invGood_tick _ delta input inv2 b ih heq
    | pickup invEnt name inv2 out heq =>
      exact invGood_pickup _ invEnt name inv2 out ih heq

/-- C1: in every reachable state (any sequence of per-tick equip updates
and pickups from spawn), equipped_slot references at most one slot; when
it is set, the referenced slot is occupied by a live item; and it is
none only while the equip state is unequipped. -/
theorem C1_equipped_slot_invariant (g : GState) (h : Reachable g) :
    (∀ s t, g.inv.equipped_slot = some s → g.inv.equipped_slot = some t → s = t)
    ∧ (∀ s, g.inv.equipped_slot = some s → occupied g.store g.inv s)
    ∧ (g.inv.equipped_slot = none → g.inv.equip_state_name = UNEQUIPPED_STATE) := by
  have hg := reachable_invGood g h
  refine ⟨?_, hg.eq_occ, hg.none_unequipped⟩
  intro s t hs ht
  rw [hs] at ht
  exact Option.some.inj ht

/-- C1 witness: the invariant instantiated at the concrete reachable
state after one pickup from spawn — the equipped slot 0 is occupied. -/
theorem C1_equipped_slot_invariant_witness :
    occupied g1W.store g1W.inv 0 :=
  (C1_equipped_slot_invariant g1W
      (Relation.ReflTransGen.single
        (Step.pickup initState 9 "rifle" inv1W
          (InsertOutcome.placed none item0W) (by decide)))).2.1 0 rfl

/-- C8: setting an item into a slot of an inventory with no equipped
slot equips that slot immediately (state equipping, elapsed 0) and
spawns the item with amount 1 in the idle state; in particular a pickup
into an all-empty default inventory lands in slot 0 and is auto-drawn:
slot 0 holds the new item entity, equipped_slot = some 0, equip state
equipping with elapsed 0. -/
theorem C8_first_pickup_auto_draw :
    (∀ (inv : Inventory) (invEnt newEnt : Nat) (nm : String) (slot : Nat)
        (r : SetItemResult),
      inv.equipped_slot = none →
      inv.set_item invEnt newEnt nm slot = some r →
      r.inv.equipped_slot = some slot ∧ r.inv.equip_state_name = EQUIPPING_STATE ∧
        r.inv.equip_state_dur = 0 ∧ r.spawned.amount = 1 ∧
        r.spawned.state_name = IDLE_STATE ∧ r.spawned.inv_slot = slot ∧
        r.inv.item_ents.get? slot = some (some newEnt))
    ∧ (∀ (store : ItemStore) (invEnt newEnt : Nat) (nm : String),
        Inventory.default.insert_item store invEnt newEnt nm =
          some ({ equipped_slot := some 0, prev_equipped_slot := none,
                  equip_state_name := EQUIPPING_STATE, equip_state_dur := 0,
                  item_ents := (List.replicate 10 (none : Option Nat)).set 0 (some newEnt) },
                InsertOutcome.placed none
                  { name := nm, amount := 1, state_name := IDLE_STATE, state_dur := 0,
                    inv_ent := invEnt, inv_slot := 0 })) := by
  constructor
  · intro inv invEnt newEnt nm slot r hnone hset
    unfold Inventory.set_item at hset
    rcases hgs : inv.item_ents.get? slot with _ | existing
    · rw [hgs] at hset
      exact absurd hset (by simp)
    · rw [hgs] at hset
      dsimp only at hset
      rw [if_pos hnone] at hset
      obtain rfl := Option.some.inj hset
      refine ⟨rfl, rfl, rfl, rfl, rfl, rfl, ?_⟩
      obtain ⟨hlt, -⟩ := List.get?_eq_some.mp hgs
      exact List.get?_set_eq_of_lt _ hlt
  · intro store invEnt newEnt nm
    rfl

/-- C8 witness: the auto-draw conclusions at a concrete set_item call
into slot 3 of a default inventory. -/
theorem C8_first_pickup_auto_draw_witness :
    rSetW.inv.equipped_slot = some 3 ∧ rSetW.inv.equip_state_name = EQUIPPING_STATE ∧
      rSetW.inv.equip_state_dur = 0 ∧ rSetW.spawned.amount = 1 ∧
      rSetW.spawned.state_name = IDLE_STATE ∧ rSetW.spawned.inv_slot = 3 ∧
      rSetW.inv.item_ents.get? 3 = some (some 7) :=
  C8_first_pickup_auto_draw.1 Inventory.default 9 7 "rifle" 3 rSetW rfl (by decide)

/-! Lemmas about the entity stores of the pickup resolver. -/

lemma assocGet_removeEnts_mem {α : Type} (ds : List Nat) (l : List (Nat × α))
    (e : Nat) (h : e ∈ ds) : assocGet (removeEnts ds l) e = none := by
  unfold assocGet
  rw [List.find?_eq_none.mpr]
  · rfl
  · intro x hx
    obtain ⟨-, hnd⟩ := List.mem_filter.mp hx
    intro hbeq
    have hxe : x.1 = e := by simpa using hbeq
    have hnot : x.1 ∉ ds := by simpa using hnd
    exact hnot (hxe ▸ h)

lemma assocGet_removeEnts_none {α : Type} (ds : List Nat) (l : List (Nat × α))
    (e : Nat) (h : assocGet l e = none) :
    assocGet (removeEnts ds l) e = none := by
  unfold assocGet at h ⊢
  have hf : l.find? (fun p => p.1 == e) = none := Option.map_eq_none'.mp h
  rw [List.find?_eq_none.mpr]
  · rfl
  · intro x hx
    exact List.find?_eq_none.mp hf x (List.mem_filter.mp hx).1

lemma removeEnts_nil {α : Type} (l : List (Nat × α)) : removeEnts [] l = l := by
  unfold removeEnts
  induction l with
  | nil => rfl
  | cons a l ih => simp [List.filter_cons, ih]

lemma removeEnts_single {α : Type} (l : List (Nat × α)) (e : Nat)
    (h : assocGet l e = none) : removeEnts [e] l = l := by
  unfold removeEnts
  rw [List.filter_eq_self.mpr]
  intro a ha
  have hf : l.find? (fun p => p.1 == e) = none := Option.map_eq_none'.mp h
  have hne := List.find?_eq_none.mp hf a ha
  have hane : a.1 ≠ e := by simpa using hne
  simpa using hane

lemma assocGet_assocSet_self {α : Type} (l : List (Nat × α)) (e : Nat) (v : α)
    (h : (assocGet l e).isSome = true) :
    assocGet (assocSet l e v) e = some v := by
  induction l with
  | nil => simp [assocGet] at h
  | cons a l ih =>
    by_cases ha : a.1 = e
    · unfold assocGet assocSet
      simp [List.find?_cons, ha]
    · have hb : (a.1 == e) = false := by simpa using ha
      have h2 : (assocGet l e).isSome = true := by
        unfold assocGet at h ⊢
        rw [List.find?_cons] at h
        simpa [hb] using h
      have hrec := ih h2
      unfold assocGet assocSet at hrec ⊢
      rw [List.map_cons, if_neg ha, List.find?_cons]
      simpa [hb] using hrec

lemma insert_item_isSome (inv : Inventory) (store : ItemStore)
    (invEnt newEnt : Nat) (nm : String) :
    (inv.insert_item store invEnt newEnt nm).isSome = true := by
  unfold Inventory.insert_item
  rcases hfs : inv.find_slot store (fun item => item.isNone) with _ | k
  · rfl
  · have hc := (find_slot_eq_some inv store _ k).mp hfs
    dsimp only
    unfold Inventory.set_item
    rcases hgk : inv.item_ents.get? k with _ | existing
    · exact absurd (List.get?_eq_none.mp hgk) (by omega)
    · rfl

/-- One run of item_pickup_sys on an event neither of whose entities is a
live pickup is the identity on the world. -/
lemma itemPickupSys_no_match (w : World) (ev : IntersectionEvent)
    (h1 : assocGet w.pickups ev.collider1 = none)
    (h2 : assocGet w.pickups ev.collider2 = none) :
    itemPickupSys [ev] w = some w := by
  unfold itemPickupSys itemPickupSysAux processPickupEvent
  dsimp only
  rw [if_neg (by rintro ⟨hc, -⟩; rw [h1] at hc; exact Bool.noConfusion hc)]
  rw [if_neg (by rintro ⟨hc, -⟩; rw [h2] at hc; exact Bool.noConfusion hc)]
  dsimp only [itemPickupSysAux]
  rw [removeEnts_nil, removeEnts_nil, List.nil_append]

/-- C9: resolving a pickup event against an inventory with no vacant
slot (every slot occupied by a live item) still destroys the pickup
entity and consumes the event, but every slot of the inventory, its
equipped slot and its equip state come back unchanged, and no item is
spawned: the pickup is silently lost. -/
theorem C9_full_inventory_drops_pickup (w : World) (pk pe : Nat) (nm : String)
    (inv : Inventory)
    (hpk : assocGet w.pickups pk = some nm)
    (hpe : assocGet w.invs pe = some inv)
    (hfull : ∀ k, k < inv.item_ents.length → (slotItem w.items inv k).isSome = true)
    (hitems : assocGet w.items pk = none) :
    itemPickupSys [{ collider1 := pk, collider2 := pe }] w =
      some { pickups := removeEnts [pk] w.pickups
             invs := assocSet w.invs pe inv
             items := w.items
             nextEnt := w.nextEnt }
    ∧ assocGet (removeEnts [pk] w.pickups) pk = none
    ∧ assocGet (assocSet w.invs pe inv) pe = some inv := by
  have hfsn : inv.find_slot w.items (fun item => item.isNone) = none := by
    rw [find_slot_eq_none]
    intro j hj
    have h2 := hfull j hj
    rcases hx : slotItem w.items inv j with _ | it
    · rw [hx] at h2
      exact Bool.noConfusion h2
    · simp
  have hins : inv.insert_item w.items pe w.nextEnt nm
      = some (inv, InsertOutcome.dropped) := by
    unfold Inventory.insert_item
    rw [hfsn]
  refine ⟨?_, assocGet_removeEnts_mem [pk] w.pickups pk (by simp),
    assocGet_assocSet_self w.invs pe inv (by rw [hpe]; rfl)⟩
  unfold itemPickupSys itemPickupSysAux processPickupEvent
  dsimp only
  rw [if_pos ⟨by rw [hpk]; rfl, by rw [hpe]; rfl⟩]
  dsimp only
  rw [hpk, hpe]
  dsimp only
  rw [hins]
  dsimp only [itemPickupSysAux]
  rw [List.nil_append, removeEnts_single w.items pk hitems]

/-- C9 witness: the full-inventory pickup scenario on a concrete world
(pickup entity 100, full inventory owner entity 50). -/
theorem C9_full_inventory_drops_pickup_witness :
    itemPickupSys [{ collider1 := 100, collider2 := 50 }] wFullW =
      some { pickups := removeEnts [100] wFullW.pickups
             invs := assocSet wFullW.invs 50 fullInvW
             items := wFullW.items
             nextEnt := wFullW.nextEnt }
    ∧ assocGet (removeEnts [100] wFullW.pickups) 100 = none
    ∧ assocGet (assocSet wFullW.invs 50 fullInvW) 50 = some fullInvW :=
  C9_full_inventory_drops_pickup wFullW 100 50 "extra" fullInvW rfl rfl
    (by decide) rfl

/-- C6: pickup resolution is idempotent per pickup entity across event
deliveries in different ticks: a tick that resolves the event ends by
applying the deferred despawn of the pickup entity, so running the
system again on the very same event finds no pickup and returns the
world unchanged — the item is not inserted a second time. -/
theorem C6_pickup_resolution_idempotent (w : World) (ev : IntersectionEvent)
    (nm : String)
    (hpk : assocGet w.pickups ev.collider1 = some nm)
    (hpe : (assocGet w.invs ev.collider2).isSome = true)
    (hnp : assocGet w.pickups ev.collider2 = none) :
    ∃ w1, itemPickupSys [ev] w = some w1
      ∧ assocGet w1.pickups ev.collider1 = none
      ∧ itemPickupSys [ev] w1 = some w1 := by
  rcases hinv : assocGet w.invs ev.collider2 with _ | inv
  · rw [hinv] at hpe
    exact Bool.noConfusion hpe
  · have hsome := insert_item_isSome inv w.items ev.collider2 w.nextEnt nm
    rcases hins : inv.insert_item w.items ev.collider2 w.nextEnt nm with _ | p
    · rw [hins] at hsome
      exact Bool.noConfusion hsome
    · obtain ⟨inv2, out⟩ := p
      unfold itemPickupSys itemPickupSysAux processPickupEvent
      dsimp only
      rw [if_pos ⟨by rw [hpk]; rfl, by rw [hinv]; rfl⟩]
      dsimp only
      rw [hpk, hinv]
      dsimp only
      rw [hins]
      dsimp only
      cases out with
      | dropped =>
        refine ⟨_, rfl, ?_, ?_⟩
        · exact assocGet_removeEnts_mem _ w.pickups ev.collider1 (by simp)
        · exact itemPickupSys_no_match _ ev
            (assocGet_removeEnts_mem _ w.pickups ev.collider1 (by simp))
            (assocGet_removeEnts_none _ w.pickups ev.collider2 hnp)
      | placed d it =>
        refine ⟨_, rfl, ?_, ?_⟩
        · exact assocGet_removeEnts_mem _ w.pickups ev.collider1
            (List.mem_cons_self _ _)
        · exact itemPickupSys_no_match _ ev
            (assocGet_removeEnts_mem _ w.pickups ev.collider1
              (List.mem_cons_self _ _))
            (assocGet_removeEnts_none _ w.pickups ev.collider2 hnp)

/-- C6 witness: idempotence on the concrete world with pickup entity 100
and inventory owner entity 50. -/
theorem C6_pickup_resolution_idempotent_witness :
    ∃ w1, itemPickupSys [{ collider1 := 100, collider2 := 50 }] wFullW = some w1
      ∧ assocGet w1.pickups 100 = none
      ∧ itemPickupSys [{ collider1 := 100, collider2 := 50 }] w1 = some w1 :=
  C6_pickup_resolution_idempotent wFullW { collider1 := 100, collider2 := 50 }
    "extra" rfl rfl rfl

end QGame
